import Mathlib

/-!
Verification development for the OnTime dashboard realtime synchronization
engine.  The definitions below are shallow embeddings of the TypeScript
source: the WebSocket message pipeline and connection lifecycle of
`OntimeAPI` (src/unnamed/part_006, first document), the status deriver
`useEventsWithStatus` and store behaviour of `useWebSocketConnection`
(src/ontime-dashboard/src/hooks/useOntime.ts), and the optimistic
custom-field editing of `EventCard` (src/ontime-dashboard/src/components/EventCard.tsx).
-/

/-- A JSON value as produced by `JSON.parse`.  Arrays are included because
the pipeline classifies them with the typeof object test like plain
objects.  Object field lists are assumed to have unique keys, as
`JSON.parse` guarantees. -/
inductive JValue where
  | jnull : JValue
  | jbool : Bool → JValue
  | jnum : Int → JValue
  | jstr : String → JValue
  | jarr : List JValue → JValue
  | jobj : List (String × JValue) → JValue

/-- JavaScript truthiness of a value: null, false, 0 and the empty string
are falsy; every object and array is truthy. -/
def jsTruthy : JValue → Bool
  | .jnull => false
  | .jbool b => b
  | .jnum n => n != 0
  | .jstr s => s != ""
  | .jarr _ => true
  | .jobj _ => true

/-- Whether the JavaScript typeof operator yields object: true for null,
arrays and plain objects. -/
def typeofObject : JValue → Bool
  | .jnull => true
  | .jarr _ => true
  | .jobj _ => true
  | _ => false

/-- Property access on a decoded value at key `k`: a lookup in the field
list of an object; `none` models the JavaScript `undefined` result on
every other value. -/
def jget (k : String) : JValue → Option JValue
  | .jobj fs => fs.lookup k
  | _ => none

/-- JavaScript string conversion `String(v)`: an array is rendered as
the comma join of its elements and an object as the fixed tag produced
by the default `Object.prototype.toString`. -/
def jsToString : JValue → String
  | .jnull => "null"
  | .jbool true => "true"
  | .jbool false => "false"
  | .jnum n => toString n
  | .jstr s => s
  | .jobj _ => "[object Object]"
  | .jarr xs => String.intercalate "," (xs.attach.map fun x => jsToString x.1)
decreasing_by
  simp_wf
  have h := List.sizeOf_lt_of_mem x.2
  omega

/-- Truthiness of a possibly-undefined value: `undefined` is falsy. -/
def optTruthy : Option JValue → Bool
  | none => false
  | some v => jsTruthy v

/-- The guard requiring a truthy, object-typed payload, used on
possibly-undefined payloads. -/
def isTruthyObject : Option JValue → Bool
  | none => false
  | some v => jsTruthy v && typeofObject v

/-- The normalized envelope handed to `handleWebSocketMessage`: the
`topic` and `payload` properties of the message object, where `none`
models an absent (`undefined`) property. -/
structure Envelope where
  topic : Option JValue
  payload : Option JValue

/-- The `onmessage` normalization of `connectWebSocket`
(src/unnamed/part_006 lines 307-359) applied to the result of
`JSON.parse` (`none` is a parse failure).  A falsy or non-object decoded
value is discarded; a message with a `topic` property is forwarded as is;
a message with a `type` property is converted with payload
`parsedMessage.data || parsedMessage`; any other object is wrapped under
the topic "unknown-data". -/
def normalizeFrame : Option JValue → Option Envelope
  | none => none
  | some v =>
    if jsTruthy v && typeofObject v then
      match jget "topic" v with
      | some t => some { topic := some t, payload := jget "payload" v }
      | none =>
        match jget "type" v with
        | some ty =>
          some { topic := some ty
                 payload := some (match jget "data" v with
                   | some d => if jsTruthy d then d else v
                   | none => v) }
        | none => some { topic := some (.jstr "unknown-data"), payload := some v }
    else
      none

/-- The coercion applied to a non-null topic in `handleWebSocketMessage`
line 458: a string topic is kept verbatim, any other value is passed
through the String conversion of the topic when truthy and of the empty
string otherwise. -/
def coerceTopic : JValue → String
  | .jstr s => s
  | t => if jsTruthy t then jsToString t else ""

/-- ASCII case folding of one character, as `toLowerCase` acts on the
ASCII topics of the protocol. -/
def charToLower (c : Char) : Char :=
  if 65 ≤ c.toNat ∧ c.toNat ≤ 90 then Char.ofNat (c.toNat + 32) else c

/-- JavaScript toLowerCase on the ASCII topic strings of the protocol:
fold every character. -/
def toLowerStr (s : String) : String :=
  String.mk (s.data.map charToLower)

/-- The normalization of `handleWebSocketMessage` line 476: an empty
coerced topic is recorded as "unknown", otherwise the lowercase form is
used. -/
def normalizeTopic (t : JValue) : String :=
  let s := coerceTopic t
  if s = "" then "unknown" else toLowerStr s

/-- The fixed recognized topic list of `handleWebSocketMessage`
lines 483-487. -/
def validTopics : List String :=
  ["ontime-clock", "clock", "runtime", "timer", "playback", "poll",
   "get-runtime", "get-timer", "get-playback", "ontime", "ontime-poll",
   "unknown-data", "error"]

/-- Outcome of `handleWebSocketMessage`: the normalized topic computed
for the message (none when the topic property was null or undefined) and
the payload broadcast to every subscriber (none when nothing was
broadcast). -/
structure HandleResult where
  normalizedTopic : Option String
  delivered : Option JValue

/-- The function `OntimeAPI.handleWebSocketMessage` (src/unnamed/part_006
lines 420-545) as a pure function from envelope to broadcast outcome.
A null or undefined topic broadcasts a truthy object payload and nothing
else; otherwise the topic is coerced and normalized, a recognized topic
broadcasts any truthy payload, and an unrecognized topic still
broadcasts a truthy object payload.  The trailing catch blocks of the
source are unreachable for pure data and are not modelled. -/
def handleWebSocketMessage (m : Envelope) : HandleResult :=
  match m.topic with
  | none => { normalizedTopic := none
              delivered := if isTruthyObject m.payload then m.payload else none }
  | some .jnull => { normalizedTopic := none
                     delivered := if isTruthyObject m.payload then m.payload else none }
  | some t =>
    let nt := normalizeTopic t
    if nt ∈ validTopics then
      { normalizedTopic := some nt
        delivered := if optTruthy m.payload then m.payload else none }
    else
      { normalizedTopic := some nt
        delivered := if isTruthyObject m.payload then m.payload else none }

/-- The Runtime State Store update of `useWebSocketConnection`
(useOntime.ts lines 107-111): the subscriber installed by the hook
replaces the held `runtimeData` with every broadcast payload via
`setRuntimeData(data)`; when nothing is broadcast the held snapshot is
unchanged. -/
def storeMerge (old : Option JValue) (m : Envelope) : Option JValue :=
  match (handleWebSocketMessage m).delivered with
  | some p => some p
  | none => old

/-- Top-level slice access on the held snapshot: the playback slice. -/
def snapshotPlayback (s : Option JValue) : Option JValue :=
  s.bind (jget "playback")

/-- Top-level slice access on the held snapshot: the timer slice. -/
def snapshotTimer (s : Option JValue) : Option JValue :=
  s.bind (jget "timer")

/-- An event of the ordered rundown (src/ontime-dashboard/src/types/ontime.ts,
OntimeEvent).  The optional display-only fields (note, colour, warning and
danger thresholds, start and end times) are never read by the engine under
verification and are omitted; `custom` models the optional custom record,
where an absent record behaves like an empty one under optional chaining. -/
structure OntimeEvent where
  id : String
  title : String
  cue : String
  isPublic : Bool
  skip : Bool
  endAction : String
  timerType : String
  duration : Option Int
  custom : List (String × String)
deriving DecidableEq, Repr

/-- The playback slice of the runtime snapshot (types/ontime.ts,
PlaybackState); nullable identifiers and indexes are options. -/
structure PlaybackState where
  state : String
  selectedEventId : Option String
  selectedEventIndex : Option Int
  loadedEventId : Option String
  loadedEventIndex : Option Int
deriving DecidableEq, Repr

/-- The timer slice of the runtime snapshot (types/ontime.ts, TimerState);
only the fields read by the engine are kept. -/
structure TimerState where
  current : Int
  duration : Int
  expectedFinish : Int
deriving DecidableEq, Repr

/-- The runtime snapshot consumed by the status deriver.  The slices are
optional because wire payloads are cast without validation, which is what
the optional chaining `runtimeData?.playback?...` in the hook guards
against; the presentation-only fields (message, event pointers) are not
read by the deriver and are omitted. -/
structure RuntimeData where
  timer : Option TimerState
  playback : Option PlaybackState
deriving DecidableEq, Repr

/-- The derived display status (types/ontime.ts, EventStatus). -/
inductive EventStatus where
  | completed : EventStatus
  | active : EventStatus
  | upcoming : EventStatus
  | skipped : EventStatus
deriving DecidableEq, Repr

/-- An event together with its derived status (types/ontime.ts,
EventWithStatus). -/
structure EventWithStatus extends OntimeEvent where
  status : EventStatus
  isRunning : Bool
  timeRemaining : Option Int
deriving DecidableEq, Repr

/-- The selected event id `runtimeData?.playback?.selectedEventId`. -/
def runtimeSelectedId (d : Option RuntimeData) : Option String :=
  (d.bind RuntimeData.playback).bind PlaybackState.selectedEventId

/-- The playback state `runtimeData?.playback?.state`. -/
def runtimePlaybackState (d : Option RuntimeData) : Option String :=
  (d.bind RuntimeData.playback).map PlaybackState.state

/-- The current timer value `runtimeData?.timer?.current`. -/
def runtimeCurrent (d : Option RuntimeData) : Option Int :=
  (d.bind RuntimeData.timer).map TimerState.current

/-- JavaScript `Array.prototype.findIndex`: the index of the first element
satisfying the test, and -1 when there is none. -/
def jsFindIndex (p : α → Bool) : List α → Int
  | [] => -1
  | a :: as =>
    if p a then 0
    else
      let r := jsFindIndex p as
      if r = -1 then -1 else r + 1

/-- JavaScript `Array.prototype.map` with the element index passed to the
callback. -/
def mapWithIndex (f : Nat → α → β) : Nat → List α → List β
  | _, [] => []
  | i, a :: as => f i a :: mapWithIndex f (i + 1) as

/-- The status computation of `useEventsWithStatus`
(src/ontime-dashboard/src/hooks/useOntime.ts lines 221-249) for one
event at its rundown index: a skipped flag wins, the event matching the
selected id is active with `isRunning` iff the playback state is the
string start and `timeRemaining` when the timer value is defined and the
duration truthy, events strictly before the selected index are
completed, everything else is upcoming. -/
def deriveOne (rundown : List OntimeEvent) (runtimeData : Option RuntimeData)
    (index : Nat) (event : OntimeEvent) : EventWithStatus :=
  let currentEventId := runtimeSelectedId runtimeData
  let currentTime := runtimeCurrent runtimeData
  if event.skip then
    { toOntimeEvent := event, status := .skipped, isRunning := false, timeRemaining := none }
  else if currentEventId == some event.id then
    { toOntimeEvent := event
      status := .active
      isRunning := runtimePlaybackState runtimeData == some "start"
      timeRemaining :=
        match currentTime, event.duration with
        | some ct, some dur => if dur != 0 then some (dur * 1000 - ct) else none
        | _, _ => none }
  else
    let currentIndex := jsFindIndex (fun e => currentEventId == some e.id) rundown
    { toOntimeEvent := event
      status := if currentIndex != -1 && (index : Int) < currentIndex then .completed else .upcoming
      isRunning := false
      timeRemaining := none }

/-- The hook `useEventsWithStatus`: map the rundown through the
per-event status computation. -/
def eventsWithStatus (rundown : List OntimeEvent) (runtimeData : Option RuntimeData) :
    List EventWithStatus :=
  mapWithIndex (deriveOne rundown runtimeData) 0 rundown

/-- Lifecycle of one WebSocket object created by `connectWebSocket`:
it is connecting until its open event fires, open afterwards, and closed
once its close event has been delivered. -/
inductive SockStatus where
  | connecting : SockStatus
  | opened : SockStatus
  | closed : SockStatus
deriving DecidableEq, Repr

/-- The connection-related fields of the `OntimeAPI` singleton
(src/unnamed/part_006 lines 18-24): `socks` records every socket object
ever constructed (indexed by creation order), `websocket` is the field
`this.websocket` (an index, or none for null) and `reconnectArmed`
states whether `this.reconnectInterval` holds a live interval. -/
structure ConnState where
  socks : List SockStatus
  websocket : Option Nat
  reconnectArmed : Bool
deriving DecidableEq, Repr

/-- The state of a freshly constructed `OntimeAPI`. -/
def initConn : ConnState := { socks := [], websocket := none, reconnectArmed := false }

/-- The method `connectWebSocket` (lines 279-305): constructs a new
WebSocket and overwrites `this.websocket` with it.  The source neither closes a
previously held socket nor checks whether one exists, so an earlier
socket keeps living with its handlers attached. -/
def connectWebSocket (s : ConnState) : ConnState :=
  { s with socks := s.socks ++ [SockStatus.connecting], websocket := some s.socks.length }

/-- The asynchronous events interleaving with the manager: an explicit
`connectWebSocket` call, the open or close event of socket `i`, an
explicit `disconnectWebSocket` call, and a tick of the reconnection
interval. -/
inductive WsAction where
  | connect : WsAction
  | openEvt : Nat → WsAction
  | closeEvt : Nat → WsAction
  | disconnect : WsAction
  | reconnectTick : WsAction

/-- One step of the connection manager.

`openEvt i` fires the `onopen` handler of socket `i` (the probe sends
touch no connection state).  `closeEvt i` can be delivered for any
not-yet-closed socket (server-side drop or completion of a local
`close()`); its `onclose` handler (lines 361-366) sets `this.websocket`
to null and calls `scheduleReconnect`, which arms the interval unless
one is already armed (lines 550-559).  The handler stays attached to the
socket, so it also runs for sockets closed by `disconnectWebSocket`.
`disconnect` is `disconnectWebSocket` (lines 381-393): it clears the
reconnection interval and drops the `websocket` reference after calling
`close()` on it; the close event of that socket is delivered later as a
separate `closeEvt`.  `reconnectTick` is one firing of the reconnection
interval, which merely calls `connectWebSocket` again (line 555) and
never clears itself. -/
def wsStep (s : ConnState) : WsAction → ConnState
  | .connect => connectWebSocket s
  | .openEvt i =>
    match s.socks.get? i with
    | some .connecting => { s with socks := s.socks.set i SockStatus.opened }
    | _ => s
  | .closeEvt i =>
    match s.socks.get? i with
    | some .connecting =>
      { socks := s.socks.set i SockStatus.closed, websocket := none, reconnectArmed := true }
    | some .opened =>
      { socks := s.socks.set i SockStatus.closed, websocket := none, reconnectArmed := true }
    | _ => s
  | .disconnect => { s with websocket := none, reconnectArmed := false }
  | .reconnectTick => if s.reconnectArmed then connectWebSocket s else s

/-- Run the manager from the freshly constructed state through a list of
actions. -/
def runWs (acts : List WsAction) : ConnState := acts.foldl wsStep initConn

/-- How many streaming connections are open simultaneously. -/
def openCount (s : ConnState) : Nat := (s.socks.filter (· == SockStatus.opened)).length

/-- JavaScript `a || b` on an optional string where both `undefined`
and the empty string are falsy. -/
def jsOrS (a : Option String) (b : String) : String :=
  match a with
  | some s => if s = "" then b else s
  | none => b

/-- The local state of one `EventCard`
(src/ontime-dashboard/src/components/EventCard.tsx lines 30-31):
the field currently being edited and the record of locally edited
values. -/
structure CardState where
  editingField : Option String
  fieldValues : String → Option String

/-- Initial local state of the card (line 31): the local values start
as the custom record of the event. -/
def initialCardState (ev : OntimeEvent) : CardState :=
  { editingField := none, fieldValues := fun f => ev.custom.lookup f }

/-- The displayed value of a custom field (line 370): the locally edited
value when truthy, else the custom record value of the event when
truthy, else the empty string. -/
def displayedValue (ev : OntimeEvent) (st : CardState) (f : String) : String :=
  jsOrS (st.fieldValues f) (jsOrS (ev.custom.lookup f) "")

/-- Typing in the edit control (lines 423-426 and friends): the local
record is updated with the new text at once, which is what makes the
edit optimistic. -/
def typeChange (st : CardState) (f v : String) : CardState :=
  { editingField := st.editingField
    fieldValues := fun k => if k = f then some v else st.fieldValues k }

/-- Outcome of the PATCH issued through `updateCustomField.mutateAsync`:
the promise either resolves or rejects with an error. -/
inductive PatchResult where
  | ok : PatchResult
  | rejected : String → PatchResult

/-- The handler `EventCard.handleFieldSave` (lines 38-54).  On resolution the edit
mode is left and the locally edited value stays; on rejection the
awaiting caller of the PATCH receives the error in its catch block,
logs it (returned as the second component) and resets the local value
to the custom record value of the event, defaulting to the empty
string.  The rejection is consumed there:
the promise returned by `handleFieldSave` itself always resolves. -/
def handleFieldSave (ev : OntimeEvent) (st : CardState) (f : String) (v : String)
    (r : PatchResult) : CardState × Option String :=
  match r with
  | .ok => ({ editingField := none, fieldValues := st.fieldValues }, none)
  | .rejected err =>
    ({ editingField := st.editingField
       fieldValues := fun k => if k = f then some (jsOrS (ev.custom.lookup f) "") else st.fieldValues k },
     some err)

/-- A held snapshot with both a timer and a playback slice, used to
probe the merge policy. -/
def c1old : JValue :=
  .jobj [("timer", .jobj [("current", .jnum 1000)]),
         ("playback", .jobj [("state", .jstr "start")])]

/-- A recognized timer-topic envelope whose payload carries only a timer
slice. -/
def c1env : Envelope :=
  { topic := some (.jstr "timer")
    payload := some (.jobj [("timer", .jobj [("current", .jnum 2000)])]) }

/-- The rundown of the end-to-end scenario: three consecutive events,
none skipped, the middle one with a duration of 600 seconds. -/
def c2rundown : List OntimeEvent :=
  [{ id := "421b5a", title := "Opening", cue := "1", isPublic := true, skip := false,
     endAction := "none", timerType := "count-down", duration := some 300, custom := [] },
   { id := "21313f", title := "Keynote", cue := "2", isPublic := true, skip := false,
     endAction := "none", timerType := "count-down", duration := some 600, custom := [] },
   { id := "146dc4", title := "Closing", cue := "3", isPublic := true, skip := false,
     endAction := "none", timerType := "count-down", duration := some 300, custom := [] }]

/-- The snapshot of the end-to-end scenario: the middle event is
selected, playback is started and the timer reads 30000 milliseconds. -/
def c2runtime : Option RuntimeData :=
  some { timer := some { current := 30000, duration := 600000, expectedFinish := 0 }
         playback := some { state := "start", selectedEventId := some "21313f",
                            selectedEventIndex := some 1, loadedEventId := some "21313f",
                            loadedEventIndex := some 1 } }

/-- Explicit teardown scenario: a connection is established and opened,
then torn down; the close event of the explicitly closed socket arrives
afterwards. -/
def c3trace : List WsAction :=
  [WsAction.connect, WsAction.openEvt 0, WsAction.disconnect, WsAction.closeEvt 0]

/-- Reconnect scenario: the first connection opens, the server drops it
arming the reconnection interval, and the next tick establishes a new
connection that opens successfully. -/
def c4trace1 : List WsAction :=
  [WsAction.connect, WsAction.openEvt 0, WsAction.closeEvt 0,
   WsAction.reconnectTick, WsAction.openEvt 1]

/-- Continuation of the reconnect scenario: the interval, never cleared
by the successful reconnect, fires again and its connection also
opens. -/
def c4trace2 : List WsAction :=
  c4trace1 ++ [WsAction.reconnectTick, WsAction.openEvt 2]

/-- A rundown whose second event is flagged skip. -/
def c6rundown : List OntimeEvent :=
  [{ id := "A", title := "First", cue := "1", isPublic := true, skip := false,
     endAction := "none", timerType := "count-down", duration := some 60, custom := [] },
   { id := "B", title := "Second", cue := "2", isPublic := true, skip := true,
     endAction := "none", timerType := "count-down", duration := some 60, custom := [] },
   { id := "C", title := "Third", cue := "3", isPublic := true, skip := false,
     endAction := "none", timerType := "count-down", duration := some 60, custom := [] }]

/-- A snapshot selecting the skipped event itself, so that skip
dominance is exercised against the active rule. -/
def c6runtime : Option RuntimeData :=
  some { timer := some { current := 0, duration := 60000, expectedFinish := 0 }
         playback := some { state := "start", selectedEventId := some "B",
                            selectedEventIndex := some 1, loadedEventId := some "B",
                            loadedEventIndex := some 1 } }

/-- The event of the optimistic-edit scenario, holding a previous server
value for the edited custom field. -/
def c7event : OntimeEvent :=
  { id := "421b5a", title := "Opening", cue := "1", isPublic := true, skip := false,
    endAction := "none", timerType := "count-down", duration := some 300,
    custom := [("Image_Test", "old-value")] }

/-- A rundown for the no-selection scenario: one plain event and one
skipped event. -/
def c10rundown : List OntimeEvent :=
  [{ id := "A", title := "First", cue := "1", isPublic := true, skip := false,
     endAction := "none", timerType := "count-down", duration := some 60, custom := [] },
   { id := "B", title := "Second", cue := "2", isPublic := true, skip := true,
     endAction := "none", timerType := "count-down", duration := some 60, custom := [] }]

/-- A snapshot whose selected event id matches no event of the
rundown. -/
def c10runtime : Option RuntimeData :=
  some { timer := some { current := 0, duration := 0, expectedFinish := 0 }
         playback := some { state := "stop", selectedEventId := some "zzz",
                            selectedEventIndex := none, loadedEventId := none,
                            loadedEventIndex := none } }
theorem mapWithIndex_length (f : Nat → α → β) :
    ∀ (i : Nat) (l : List α), (mapWithIndex f i l).length = l.length := by
  intro i l
  induction l generalizing i with
  | nil => rfl
  | cons a as ih => simp [mapWithIndex, ih]

theorem mapWithIndex_get (f : Nat → α → β) :
    ∀ (l : List α) (i j : Nat) (h : j < l.length),
      (mapWithIndex f i l).get ⟨j, by rw [mapWithIndex_length]; exact h⟩ =
        f (i + j) (l.get ⟨j, h⟩) := by
  intro l
  induction l with
  | nil => intro i j h; exact absurd h (Nat.not_lt_zero j)
  | cons a as ih =>
    intro i j h
    cases j with
    | zero => simp [mapWithIndex]
    | succ j =>
      simp only [mapWithIndex, List.get]
      rw [ih (i + 1) j (Nat.lt_of_succ_lt_succ h)]
      ring_nf

theorem eventsWithStatus_length (r : List OntimeEvent) (d : Option RuntimeData) :
    (eventsWithStatus r d).length = r.length := by
  rw [eventsWithStatus, mapWithIndex_length]

theorem eventsWithStatus_get (r : List OntimeEvent) (d : Option RuntimeData)
    (j : Nat) (h : j < r.length) :
    (eventsWithStatus r d).get ⟨j, by rw [eventsWithStatus_length]; exact h⟩ =
      deriveOne r d j (r.get ⟨j, h⟩) := by
  have := mapWithIndex_get (deriveOne r d) r 0 j h
  simpa [eventsWithStatus] using this

theorem jsFindIndex_eq_neg_one {p : α → Bool} :
    ∀ {l : List α}, (∀ a ∈ l, p a = false) → jsFindIndex p l = -1 := by
  intro l
  induction l with
  | nil => intro _; rfl
  | cons a as ih =>
    intro h
    have ha := h a (List.mem_cons_self a as)
    have has := ih (fun b hb => h b (List.mem_cons_of_mem a hb))
    simp [jsFindIndex, ha, has]

/-- C1 counterexample: merging the recognized timer-only envelope
`c1env` into the snapshot `c1old` changes the playback slice (it is
dropped entirely), because the store replaces the held snapshot with the
payload instead of replacing slices independently. -/
theorem C1_counterexample :
    snapshotPlayback (storeMerge (some c1old) c1env) ≠ snapshotPlayback (some c1old) := by
  have h1 : snapshotPlayback (storeMerge (some c1old) c1env) = none := rfl
  have h2 : snapshotPlayback (some c1old) = some (.jobj [("state", .jstr "start")]) := rfl
  rw [h1, h2]
  intro h
  exact Option.noConfusion h

/-- C1 (amended): for every envelope whose topic is a string in the
recognized set and whose payload is truthy, the store merge replaces the
held snapshot wholesale with the payload, so the post-merge snapshot
carries exactly the slices of the payload and slices absent from the
payload are not preserved. -/
theorem C1_merge_replaces_snapshot (old : Option JValue) (t : String) (p : JValue)
    (ht : normalizeTopic (.jstr t) ∈ validTopics) (hp : jsTruthy p = true) :
    storeMerge old { topic := some (.jstr t), payload := some p } = some p := by
  simp [storeMerge, handleWebSocketMessage, ht, optTruthy, hp]

/-- Witness for the amended C1 at the timer-only envelope. -/
theorem C1_merge_replaces_snapshot_witness :
    normalizeTopic (.jstr "timer") ∈ validTopics ∧
    jsTruthy (.jobj [("timer", .jobj [("current", .jnum 2000)])]) = true ∧
    storeMerge (some c1old) c1env =
      some (.jobj [("timer", .jobj [("current", .jnum 2000)])]) :=
  ⟨by decide, rfl,
   C1_merge_replaces_snapshot (some c1old) "timer" _ (by decide) rfl⟩

/-- C2: in the end-to-end scenario the deriver marks the first event
completed, the middle event active and running with 570000 milliseconds
remaining, and the last event upcoming. -/
theorem C2_end_to_end :
    eventsWithStatus c2rundown c2runtime =
      [{ toOntimeEvent := c2rundown.get ⟨0, by decide⟩, status := .completed,
         isRunning := false, timeRemaining := none },
       { toOntimeEvent := c2rundown.get ⟨1, by decide⟩, status := .active,
         isRunning := true, timeRemaining := some 570000 },
       { toOntimeEvent := c2rundown.get ⟨2, by decide⟩, status := .upcoming,
         isRunning := false, timeRemaining := none }] := by
  decide

/-- C3 evaluated at the failing trace: after `connect`, a successful
open, an explicit `disconnectWebSocket` and the delivery of the close
event of the explicitly closed socket, the reconnection interval is
armed again, and its next tick opens a fresh streaming connection with
no further explicit connect call.  The `onclose` handler left attached
to the closed socket defeats the teardown. -/
theorem C3_reconnect_resumes_after_teardown :
    (runWs c3trace).reconnectArmed = true ∧
    (runWs (c3trace ++ [WsAction.reconnectTick, WsAction.openEvt 1])).socks.get? 1 =
      some SockStatus.opened := by
  decide

/-- C4 evaluated at the failing trace: after a server-side close arms
the interval and a tick reconnects successfully (socket 1 is open and
current), the interval is still armed, and one more tick plus open
leaves two streaming connections open simultaneously. -/
theorem C4_timer_not_disarmed_duplicate_connections :
    (runWs c4trace1).websocket = some 1 ∧
    (runWs c4trace1).socks.get? 1 = some SockStatus.opened ∧
    (runWs c4trace1).reconnectArmed = true ∧
    openCount (runWs c4trace2) = 2 := by
  decide

/-- C5: a frame whose topic is present and non-null but normalizes
outside the recognized set is still broadcast to every subscriber
whenever its payload is an object. -/
theorem C5_unknown_topic_object_delivered (t : JValue) (fs : List (String × JValue))
    (hn : t ≠ JValue.jnull) (hu : normalizeTopic t ∉ validTopics) :
    (handleWebSocketMessage { topic := some t, payload := some (.jobj fs) }).delivered =
      some (.jobj fs) := by
  cases t with
  | jnull => exact absurd rfl hn
  | jbool b => simp [handleWebSocketMessage, hu, isTruthyObject, jsTruthy, typeofObject]
  | jnum n => simp [handleWebSocketMessage, hu, isTruthyObject, jsTruthy, typeofObject]
  | jstr s => simp [handleWebSocketMessage, hu, isTruthyObject, jsTruthy, typeofObject]
  | jarr xs => simp [handleWebSocketMessage, hu, isTruthyObject, jsTruthy, typeofObject]
  | jobj gs => simp [handleWebSocketMessage, hu, isTruthyObject, jsTruthy, typeofObject]

/-- Witness for C5 at a previously unseen topic with an object
payload carrying a timer slice. -/
theorem C5_witness :
    JValue.jstr "fresh-shape" ≠ JValue.jnull ∧
    normalizeTopic (.jstr "fresh-shape") ∉ validTopics ∧
    (handleWebSocketMessage { topic := some (.jstr "fresh-shape")
                              payload := some (.jobj [("timer", .jnum 5)]) }).delivered =
      some (.jobj [("timer", .jnum 5)]) :=
  ⟨fun h => JValue.noConfusion h, by decide,
   C5_unknown_topic_object_delivered _ _ (fun h => JValue.noConfusion h) (by decide)⟩

/-- C6: an event flagged skip is derived as skipped for every rundown
and snapshot, wherever it sits and whether or not it is selected. -/
theorem C6_skip_always_skipped (r : List OntimeEvent) (d : Option RuntimeData)
    (i : Nat) (hi : i < r.length) (hskip : (r.get ⟨i, hi⟩).skip = true) :
    ((eventsWithStatus r d).get ⟨i, by rw [eventsWithStatus_length]; exact hi⟩).status =
      EventStatus.skipped := by
  rw [eventsWithStatus_get r d i hi]
  simp only [List.get_eq_getElem] at hskip
  simp [deriveOne, hskip]

/-- Witness for C6: the skipped event is the selected one, yet it is
derived skipped, not active. -/
theorem C6_witness :
    (c6rundown.get ⟨1, by decide⟩).skip = true ∧
    ((eventsWithStatus c6rundown c6runtime).get
        ⟨1, by rw [eventsWithStatus_length]; decide⟩).status = EventStatus.skipped :=
  ⟨rfl, C6_skip_always_skipped c6rundown c6runtime 1 (by decide) rfl⟩

/-- C7: typing a non-empty value into a custom-field editor displays it
at once; if the PATCH promise rejects, the rejection is delivered to the
awaiting catch block in `handleFieldSave` (the caller of the request),
which logs the error and rolls the displayed value back to the pre-edit
server value held in the custom record of the event; if the PATCH resolves,
the edited value stays displayed. -/
theorem C7_optimistic_edit (ev : OntimeEvent) (st : CardState) (f v s0 err : String)
    (hc : ev.custom.lookup f = some s0) (hv : v ≠ "") :
    displayedValue ev (typeChange st f v) f = v ∧
    displayedValue ev (handleFieldSave ev (typeChange st f v) f v (.rejected err)).1 f = s0 ∧
    (handleFieldSave ev (typeChange st f v) f v (.rejected err)).2 = some err ∧
    displayedValue ev (handleFieldSave ev (typeChange st f v) f v .ok).1 f = v ∧
    (handleFieldSave ev (typeChange st f v) f v .ok).2 = none := by
  refine ⟨?_, ?_, rfl, ?_, rfl⟩
  · simp [displayedValue, typeChange, jsOrS, hv]
  · by_cases hs0 : s0 = "" <;>
      simp [displayedValue, handleFieldSave, typeChange, jsOrS, hc, hs0]
  · simp [displayedValue, handleFieldSave, typeChange, jsOrS, hv]

/-- Witness for C7 at the scenario of the specification: field
Image_Test on event 421b5a edited to an image URL. -/
theorem C7_witness :
    c7event.custom.lookup "Image_Test" = some "old-value" ∧
    ("https://example.com/a.png" : String) ≠ "" ∧
    (displayedValue c7event
        (typeChange (initialCardState c7event) "Image_Test" "https://example.com/a.png")
        "Image_Test" = "https://example.com/a.png" ∧
     displayedValue c7event
        (handleFieldSave c7event
          (typeChange (initialCardState c7event) "Image_Test" "https://example.com/a.png")
          "Image_Test" "https://example.com/a.png" (.rejected "request failed")).1
        "Image_Test" = "old-value" ∧
     (handleFieldSave c7event
        (typeChange (initialCardState c7event) "Image_Test" "https://example.com/a.png")
        "Image_Test" "https://example.com/a.png" (.rejected "request failed")).2 =
          some "request failed" ∧
     displayedValue c7event
        (handleFieldSave c7event
          (typeChange (initialCardState c7event) "Image_Test" "https://example.com/a.png")
          "Image_Test" "https://example.com/a.png" .ok).1
        "Image_Test" = "https://example.com/a.png" ∧
     (handleFieldSave c7event
        (typeChange (initialCardState c7event) "Image_Test" "https://example.com/a.png")
        "Image_Test" "https://example.com/a.png" .ok).2 = none) :=
  ⟨rfl, by decide,
   C7_optimistic_edit c7event (initialCardState c7event)
     "Image_Test" "https://example.com/a.png" "old-value" "request failed" rfl (by decide)⟩

/-- C8 counterexample: the frame decoding to the number 42 is a valid
JSON value that is not an object, and the onmessage validator discards
it instead of wrapping it as an unknown-data envelope. -/
theorem C8_counterexample : normalizeFrame (some (.jnum 42)) = none := rfl

/-- C8 (amended): a frame whose decoded value is not object-typed, or is
the null object, is discarded rather than wrapped; a truthy object with
neither a topic nor a type field is the shape that is wrapped as the
unknown-data envelope and forwarded. -/
theorem C8_nonobject_discarded :
    (∀ v : JValue, typeofObject v = false → normalizeFrame (some v) = none) ∧
    normalizeFrame (some JValue.jnull) = none ∧
    (∀ fs : List (String × JValue), fs.lookup "topic" = none → fs.lookup "type" = none →
      normalizeFrame (some (.jobj fs)) =
        some { topic := some (.jstr "unknown-data"), payload := some (.jobj fs) }) := by
  refine ⟨?_, rfl, ?_⟩
  · intro v hv
    cases v with
    | jnull => simp [typeofObject] at hv
    | jarr xs => simp [typeofObject] at hv
    | jobj fs => simp [typeofObject] at hv
    | jbool b => simp [normalizeFrame, typeofObject]
    | jnum n => simp [normalizeFrame, typeofObject]
    | jstr s => simp [normalizeFrame, typeofObject]
  · intro fs h1 h2
    simp [normalizeFrame, jsTruthy, typeofObject, jget, h1, h2]

/-- Witness for the amended C8: a string frame is discarded, while an
object frame without topic and type fields is wrapped and forwarded. -/
theorem C8_witness :
    typeofObject (JValue.jstr "hello") = false ∧
    normalizeFrame (some (.jstr "hello")) = none ∧
    normalizeFrame (some (.jobj [("timer", .jnum 1)])) =
      some { topic := some (.jstr "unknown-data")
             payload := some (.jobj [("timer", .jnum 1)]) } :=
  ⟨rfl, C8_nonobject_discarded.1 _ rfl, C8_nonobject_discarded.2.2 _ rfl rfl⟩

/-- C9 counterexample: a numeric topic 42 is truthy, so the source
coerces it with String(topic) to the string 42, which is recorded as
the normalized topic 42 and not as unknown. -/
theorem C9_counterexample :
    coerceTopic (.jnum 42) = "42" ∧
    (handleWebSocketMessage { topic := some (.jnum 42)
                              payload := some (.jobj [("timer", .jnum 1)]) }).normalizedTopic =
      some "42" ∧
    ("42" : String) ≠ "unknown" := by
  have hjs : jsToString (JValue.jnum 42) = "42" := by
    simp only [jsToString]
    rfl
  have hc : coerceTopic (JValue.jnum 42) = "42" := by
    simp [coerceTopic, jsTruthy, hjs]
  have hnt : normalizeTopic (JValue.jnum 42) = "42" := by
    simp only [normalizeTopic, hc]
    rfl
  refine ⟨hc, ?_, by decide⟩
  simp [handleWebSocketMessage, hnt, validTopics]

/-- C9 (amended): a present, non-null topic that is neither a string nor
truthy (for example the number 0 or false) is coerced to the empty
string and recorded under the normalized topic unknown. -/
theorem C9_falsy_topic_unknown (t : JValue) (hs : ∀ s, t ≠ JValue.jstr s)
    (hn : t ≠ JValue.jnull) (hf : jsTruthy t = false) (p : Option JValue) :
    coerceTopic t = "" ∧
    (handleWebSocketMessage { topic := some t, payload := p }).normalizedTopic =
      some "unknown" := by
  have hc : coerceTopic t = "" := by
    cases t with
    | jstr s => exact absurd rfl (hs s)
    | jnull => exact absurd rfl hn
    | jbool b => simp [coerceTopic, hf]
    | jnum n => simp [coerceTopic, hf]
    | jarr xs => simp [jsTruthy] at hf
    | jobj fs => simp [jsTruthy] at hf
  have hnt : normalizeTopic t = "unknown" := by simp [normalizeTopic, hc]
  refine ⟨hc, ?_⟩
  cases t with
  | jstr s => exact absurd rfl (hs s)
  | jnull => exact absurd rfl hn
  | jbool b => simp [handleWebSocketMessage, hnt, apply_ite HandleResult.normalizedTopic]
  | jnum n => simp [handleWebSocketMessage, hnt, apply_ite HandleResult.normalizedTopic]
  | jarr xs => simp [jsTruthy] at hf
  | jobj fs => simp [jsTruthy] at hf

/-- Witness for the amended C9 at the falsy numeric topic 0. -/
theorem C9_witness :
    jsTruthy (JValue.jnum 0) = false ∧
    coerceTopic (.jnum 0) = "" ∧
    (handleWebSocketMessage { topic := some (.jnum 0), payload := none }).normalizedTopic =
      some "unknown" :=
  ⟨rfl,
   (C9_falsy_topic_unknown (.jnum 0) (fun _ h => JValue.noConfusion h)
     (fun h => JValue.noConfusion h) rfl none).1,
   (C9_falsy_topic_unknown (.jnum 0) (fun _ h => JValue.noConfusion h)
     (fun h => JValue.noConfusion h) rfl none).2⟩

/-- C10: when the snapshot selects no event of the rundown (no playback
slice, a null selected id, or an id matching no event), every skipped
event derives as skipped and every other event as upcoming; in
particular nothing is active or completed. -/
theorem C10_no_selection_all_upcoming (r : List OntimeEvent) (d : Option RuntimeData)
    (hnone : ∀ e ∈ r, runtimeSelectedId d ≠ some e.id)
    (i : Nat) (hi : i < r.length) :
    ((eventsWithStatus r d).get ⟨i, by rw [eventsWithStatus_length]; exact hi⟩).status =
      (if (r.get ⟨i, hi⟩).skip then EventStatus.skipped else EventStatus.upcoming) := by
  rw [eventsWithStatus_get r d i hi]
  have hmem := List.get_mem r i hi
  have h2 : (runtimeSelectedId d == some (r.get ⟨i, hi⟩).id) = false := by
    rw [beq_eq_false_iff_ne]
    exact hnone _ hmem
  have hfind : jsFindIndex (fun e => runtimeSelectedId d == some e.id) r = -1 :=
    jsFindIndex_eq_neg_one (fun a ha => by rw [beq_eq_false_iff_ne]; exact hnone a ha)
  simp only [List.get_eq_getElem] at h2 ⊢
  by_cases hskip : r[i].skip
  · simp [deriveOne, hskip]
  · simp [deriveOne, hskip, h2, hfind]

/-- Witness for C10: a selected id matching no event leaves the plain
event upcoming and the skipped event skipped. -/
theorem C10_witness :
    (∀ e ∈ c10rundown, runtimeSelectedId c10runtime ≠ some e.id) ∧
    ((eventsWithStatus c10rundown c10runtime).get
        ⟨0, by rw [eventsWithStatus_length]; decide⟩).status = EventStatus.upcoming ∧
    ((eventsWithStatus c10rundown c10runtime).get
        ⟨1, by rw [eventsWithStatus_length]; decide⟩).status = EventStatus.skipped :=
  ⟨by decide,
   (C10_no_selection_all_upcoming c10rundown c10runtime (by decide) 0 (by decide)).trans
     (by decide),
   (C10_no_selection_all_upcoming c10rundown c10runtime (by decide) 1 (by decide)).trans
     (by decide)⟩
